import Mathlib

/-!
# Verification of the libp2p identity-keypair layer

A shallow embedding of `identity/src/keypair.rs`: the polymorphic `Keypair`
and `PublicKey` tagged unions, their sign/verify/encode/decode dispatch, and
the protobuf wire codec for key material.

The concrete algorithm backends (ed25519, RSA, secp256k1, ECDSA), the error
type definitions and the generated protobuf code are external to the examined
source file; they are modelled from the specification as explicit capability
records (`Ed25519Backend`, …) and as a tagged wire record with a canonical
byte serialization.  Everything that `keypair.rs` itself does — variant
dispatch, feature gating, error selection, downcasts — is translated directly
from the source.

Bytes are modelled as `List Nat` (one entry per byte).
-/

/-- Byte strings, one `Nat` per byte. -/
abbrev Bytes := List Nat

/-- The closed algorithm enumeration `KeyType` (wire discriminants
0 = RSA, 1 = Ed25519, 2 = Secp256k1, 3 = ECDSA). -/
inductive KeyType where
  | RSA
  | Ed25519
  | Secp256k1
  | Ecdsa
deriving DecidableEq, Repr

/-- Modelled from the spec: the decoding-error taxonomy of §7 — missing
feature, unsupported encode/decode operation, malformed protobuf, unknown
algorithm tag, and backend-level decode failure. -/
inductive DecodingError where
  | badProtobuf (what : String)
  | missingFeature (name : String)
  | encodingUnsupported (alg : String)
  | decodingUnsupported (alg : String)
  | unsupportedAlgorithmType (tag : Nat)
  | invalidData (msg : String)
deriving DecidableEq, Repr

/-- Modelled from the spec: a backend-level signing failure. -/
inductive SigningError where
  | failed (msg : String)
deriving DecidableEq, Repr

/-- The error returned by the `try_into_*` downcasts, carrying the key type
actually held (`OtherVariantError::new(actual)`). -/
structure OtherVariantError where
  actual : KeyType
deriving DecidableEq, Repr

/-- Decidable equality of fallible results, for evaluating the model on
concrete inputs. -/
instance exceptDecEq {e a : Type} [DecidableEq e] [DecidableEq a] :
    DecidableEq (Except e a) := fun x y =>
  match x, y with
  | .ok u, .ok v =>
    if h : u = v then .isTrue (h ▸ rfl)
    else .isFalse (fun hh => h (Except.ok.inj hh))
  | .ok _, .error _ => .isFalse (fun hh => Except.noConfusion hh)
  | .error _, .ok _ => .isFalse (fun hh => Except.noConfusion hh)
  | .error u, .error v =>
    if h : u = v then .isTrue (h ▸ rfl)
    else .isFalse (fun hh => h (Except.error.inj hh))

/-! ## Wire codec

Modelled from the spec §4.3/§6: a record with a numeric algorithm-type field
(field 1, varint) and an opaque byte-string field (field 2, length-delimited),
serialized with the standard protobuf wire format.  The generated protobuf
reader/writer is not part of the examined source, so the canonical
serialization below stands in for it. -/

/-- Modelled from the spec: the canonical wire record `{algorithm type, key
data}` of §6. -/
structure WireRecord where
  tag : Nat
  data : Bytes
deriving DecidableEq, Repr

/-- Little-endian base-128 varint encoding of a natural number. -/
def encodeVarint (n : Nat) : Bytes :=
  if h : n < 128 then [n]
  else (n % 128 + 128) :: encodeVarint (n / 128)
termination_by n
decreasing_by
  exact Nat.div_lt_self (by omega) (by omega)

/-- Varint decoding: returns the value and the remaining bytes. -/
def decodeVarint : Bytes → Option (Nat × Bytes)
  | [] => none
  | b :: rest =>
    if b < 128 then some (b, rest)
    else
      match decodeVarint rest with
      | some (n, r) => some (b % 128 + 128 * n, r)
      | none => none

/-- Modelled from the spec: protobuf serialization of the wire record —
field 1 (key byte `0x08`) holds the algorithm tag as a varint, field 2
(key byte `0x12`) holds the length-delimited key data. -/
def serializeWire (r : WireRecord) : Bytes :=
  8 :: (encodeVarint r.tag ++ (18 :: (encodeVarint r.data.length ++ r.data)))

/-- Modelled from the spec: protobuf parsing of the wire record, the inverse
of `serializeWire`; `none` signals a malformed record. -/
def parseWire (bs : Bytes) : Option WireRecord :=
  match bs with
  | 8 :: rest =>
    match decodeVarint rest with
    | some (tag, rest2) =>
      match rest2 with
      | 18 :: rest3 =>
        match decodeVarint rest3 with
        | some (len, rest4) =>
          if rest4.length = len then some ⟨tag, rest4⟩ else none
        | none => none
      | _ => none
    | none => none
  | _ => none

theorem encodeVarint_lt {n : Nat} (h : n < 128) : encodeVarint n = [n] := by
  unfold encodeVarint
  simp [h]

theorem encodeVarint_ge {n : Nat} (h : ¬ n < 128) :
    encodeVarint n = (n % 128 + 128) :: encodeVarint (n / 128) := by
  conv_lhs => unfold encodeVarint
  simp [h]

/-- Decoding inverts encoding, leaving any trailing bytes untouched. -/
theorem decodeVarint_encodeVarint (n : Nat) (rest : Bytes) :
    decodeVarint (encodeVarint n ++ rest) = some (n, rest) := by
  induction n using Nat.strong_induction_on with
  | _ n ih =>
    by_cases h : n < 128
    · rw [encodeVarint_lt h]
      simp [decodeVarint, h]
    · rw [encodeVarint_ge h]
      have h2 : ¬ (n % 128 + 128 < 128) := by omega
      simp only [List.cons_append, decodeVarint, h2, if_false, List.append_eq]
      rw [ih (n / 128) (Nat.div_lt_self (by omega) (by omega))]
      simp
      omega

/-- Parsing inverts serialization of a wire record. -/
theorem parseWire_serializeWire (r : WireRecord) :
    parseWire (serializeWire r) = some r := by
  obtain ⟨tag, data⟩ := r
  show parseWire (8 :: (encodeVarint tag ++ (18 :: (encodeVarint data.length ++ data))))
      = some ⟨tag, data⟩
  simp [parseWire, decodeVarint_encodeVarint]

/-! ## Algorithm backends

Modelled from the spec §4.4: each supported algorithm provides generation,
sign, verify, public-half derivation, and native encode/decode for both key
halves.  Key values are represented by their byte content; the fields mirror
the backend operations that `keypair.rs` invokes. -/

/-- Modelled from the spec: the ed25519 backend capability set
(`ed25519::Keypair::{sign, public, to_bytes, try_from_bytes}` and
`ed25519::PublicKey::{verify, to_bytes, try_from_bytes}`). -/
structure Ed25519Backend where
  sign : Bytes → Bytes → Bytes
  public : Bytes → Bytes
  toBytes : Bytes → Bytes
  tryFromBytes : Bytes → Except DecodingError Bytes
  verify : Bytes → Bytes → Bytes → Bool
  pubToBytes : Bytes → Bytes
  pubTryFromBytes : Bytes → Except DecodingError Bytes

/-- Modelled from the spec: the RSA backend capability set
(`rsa::Keypair::{sign, public}` — signing is fallible for RSA — and
`rsa::PublicKey::{verify, encode_x509, try_decode_x509}`). -/
structure RsaBackend where
  sign : Bytes → Bytes → Except SigningError Bytes
  public : Bytes → Bytes
  verify : Bytes → Bytes → Bytes → Bool
  pubEncodeX509 : Bytes → Bytes
  pubTryDecodeX509 : Bytes → Except DecodingError Bytes

/-- Modelled from the spec: the secp256k1 backend capability set
(`secp256k1::Keypair::{secret().sign, public}`,
`secp256k1::SecretKey::{to_bytes, try_from_bytes}` and
`secp256k1::PublicKey::{verify, to_bytes, try_from_bytes}`). -/
structure Secp256k1Backend where
  sign : Bytes → Bytes → Bytes
  public : Bytes → Bytes
  secretToBytes : Bytes → Bytes
  secretTryFromBytes : Bytes → Except DecodingError Bytes
  verify : Bytes → Bytes → Bytes → Bool
  pubToBytes : Bytes → Bytes
  pubTryFromBytes : Bytes → Except DecodingError Bytes

/-- Modelled from the spec: the ECDSA backend capability set
(`ecdsa::Keypair::{secret().sign, public}`,
`ecdsa::SecretKey::{encode_der, try_decode_der}` and
`ecdsa::PublicKey::{verify, encode_der, try_decode_der}`). -/
structure EcdsaBackend where
  sign : Bytes → Bytes → Bytes
  public : Bytes → Bytes
  secretEncodeDer : Bytes → Bytes
  secretTryDecodeDer : Bytes → Except DecodingError Bytes
  verify : Bytes → Bytes → Bytes → Bool
  pubEncodeDer : Bytes → Bytes
  pubTryDecodeDer : Bytes → Except DecodingError Bytes

/-- The four algorithm backends available to the dispatch layer. -/
structure Backends where
  ed25519 : Ed25519Backend
  rsa : RsaBackend
  secp256k1 : Secp256k1Backend
  ecdsa : EcdsaBackend

/-- Modelled from the spec: the build-time feature selection of §9 — which
algorithm backends are compiled in.  The source's `#[cfg(feature = ..)]`
branches become tests of these flags on the decode paths. -/
structure Features where
  ed25519 : Bool
  rsa : Bool
  secp256k1 : Bool
  ecdsa : Bool
deriving DecidableEq, Repr

/-- All four backends compiled in. -/
def Features.all : Features := ⟨true, true, true, true⟩

/-! ## Keypair and PublicKey tagged unions (`keypair.rs`) -/

/-- The private enum `KeyPairInner` of `keypair.rs`: one arm per algorithm,
each holding that backend's keypair value. -/
inductive KeyPairInner where
  | Ed25519 (kp : Bytes)
  | Rsa (kp : Bytes)
  | Secp256k1 (kp : Bytes)
  | Ecdsa (kp : Bytes)
deriving DecidableEq, Repr

/-- `Keypair`: identity keypair of a node (wraps `KeyPairInner`). -/
structure Keypair where
  keypair : KeyPairInner
deriving DecidableEq, Repr

/-- The private enum `PublicKeyInner` of `keypair.rs`. -/
inductive PublicKeyInner where
  | Ed25519 (pk : Bytes)
  | Rsa (pk : Bytes)
  | Secp256k1 (pk : Bytes)
  | Ecdsa (pk : Bytes)
deriving DecidableEq, Repr

/-- `PublicKey`: the public key of a node's identity keypair. -/
structure PublicKey where
  publickey : PublicKeyInner
deriving DecidableEq, Repr

/-- The algorithm variant held by a `Keypair`. -/
def Keypair.keyType (K : Keypair) : KeyType :=
  match K.keypair with
  | .Ed25519 _ => .Ed25519
  | .Rsa _ => .RSA
  | .Secp256k1 _ => .Secp256k1
  | .Ecdsa _ => .Ecdsa

/-- The algorithm variant held by a `PublicKey`. -/
def PublicKey.keyType (p : PublicKey) : KeyType :=
  match p.publickey with
  | .Ed25519 _ => .Ed25519
  | .Rsa _ => .RSA
  | .Secp256k1 _ => .Secp256k1
  | .Ecdsa _ => .Ecdsa

/-- The underlying key bytes held by a `PublicKey`. -/
def PublicKey.keyBytes (p : PublicKey) : Bytes :=
  match p.publickey with
  | .Ed25519 k => k
  | .Rsa k => k
  | .Secp256k1 k => k
  | .Ecdsa k => k

/-- `Keypair::sign` (keypair.rs 162–173): dispatch on the held variant; the
ed25519/secp256k1/ECDSA backends sign infallibly (`Ok(..)`), RSA signing is
fallible. -/
def Keypair.sign (B : Backends) (K : Keypair) (msg : Bytes) :
    Except SigningError Bytes :=
  match K.keypair with
  | .Ed25519 pair => .ok (B.ed25519.sign pair msg)
  | .Rsa pair => B.rsa.sign pair msg
  | .Secp256k1 pair => .ok (B.secp256k1.sign pair msg)
  | .Ecdsa pair => .ok (B.ecdsa.sign pair msg)

/-- `Keypair::public` (keypair.rs 176–195): derive the public half by
dispatching to the held backend. -/
def Keypair.public (B : Backends) (K : Keypair) : PublicKey :=
  match K.keypair with
  | .Ed25519 pair => ⟨.Ed25519 (B.ed25519.public pair)⟩
  | .Rsa pair => ⟨.Rsa (B.rsa.public pair)⟩
  | .Secp256k1 pair => ⟨.Secp256k1 (B.secp256k1.public pair)⟩
  | .Ecdsa pair => ⟨.Ecdsa (B.ecdsa.public pair)⟩

/-- `PublicKey::verify` (keypair.rs 438–449): boolean signature check,
dispatching to the held backend; no error channel. -/
def PublicKey.verify (B : Backends) (p : PublicKey) (msg sig : Bytes) : Bool :=
  match p.publickey with
  | .Ed25519 pk => B.ed25519.verify pk msg sig
  | .Rsa pk => B.rsa.verify pk msg sig
  | .Secp256k1 pk => B.secp256k1.verify pk msg sig
  | .Ecdsa pk => B.ecdsa.verify pk msg sig

/-! ## Protobuf encode/decode dispatch -/

/-- Modelled from the spec: the §6 mapping from the numeric wire tag to the
algorithm enumeration (0 = RSA, 1 = Ed25519, 2 = Secp256k1, 3 = ECDSA);
`none` for an unrecognized tag.  The generated protobuf enum conversion is
not part of the examined source; per the spec an unrecognized tag must be
reported, never defaulted. -/
def keyTypeOfTag (t : Nat) : Option KeyType :=
  if t = 0 then some .RSA
  else if t = 1 then some .Ed25519
  else if t = 2 then some .Secp256k1
  else if t = 3 then some .Ecdsa
  else none

/-- The numeric wire tag of an algorithm (§6). -/
def KeyType.tag : KeyType → Nat
  | .RSA => 0
  | .Ed25519 => 1
  | .Secp256k1 => 2
  | .Ecdsa => 3

/-- `Keypair::to_protobuf_encoding` (keypair.rs 198–241): build the private
wire record from the held variant — RSA is refused with the distinct
"encoding unsupported" error — and serialize it. -/
def Keypair.to_protobuf_encoding (B : Backends) (K : Keypair) :
    Except DecodingError Bytes :=
  match K.keypair with
  | .Ed25519 data => .ok (serializeWire ⟨KeyType.Ed25519.tag, B.ed25519.toBytes data⟩)
  | .Rsa _ => .error (.encodingUnsupported "RSA")
  | .Secp256k1 data =>
    .ok (serializeWire ⟨KeyType.Secp256k1.tag, B.secp256k1.secretToBytes data⟩)
  | .Ecdsa data => .ok (serializeWire ⟨KeyType.Ecdsa.tag, B.ecdsa.secretEncodeDer data⟩)

/-- The tag dispatch of `Keypair::from_protobuf_encoding` (keypair.rs
261–292): Ed25519/secp256k1/ECDSA decode through their backend when the
feature is compiled in and report "missing feature" otherwise; an RSA tag is
refused unconditionally with "decoding unsupported"; an unrecognized tag is
reported as an unsupported algorithm type. -/
def Keypair.fromProto (B : Backends) (F : Features) (r : WireRecord) :
    Except DecodingError Keypair :=
  match keyTypeOfTag r.tag with
  | some .Ed25519 =>
    if F.ed25519 then (B.ed25519.tryFromBytes r.data).map (fun sk => ⟨.Ed25519 sk⟩)
    else .error (.missingFeature "ed25519")
  | some .RSA => .error (.decodingUnsupported "RSA")
  | some .Secp256k1 =>
    if F.secp256k1 then (B.secp256k1.secretTryFromBytes r.data).map (fun k => ⟨.Secp256k1 k⟩)
    else .error (.missingFeature "secp256k1")
  | some .Ecdsa =>
    if F.ecdsa then (B.ecdsa.secretTryDecodeDer r.data).map (fun k => ⟨.Ecdsa k⟩)
    else .error (.missingFeature "ecdsa")
  | none => .error (.unsupportedAlgorithmType r.tag)

/-- `Keypair::from_protobuf_encoding` (keypair.rs 245–302): parse the
private wire record ("private key bytes" protobuf failure otherwise), then
dispatch on its tag. -/
def Keypair.from_protobuf_encoding (B : Backends) (F : Features) (bytes : Bytes) :
    Except DecodingError Keypair :=
  match parseWire bytes with
  | none => .error (.badProtobuf "private key bytes")
  | some r => Keypair.fromProto B F r

/-- The `From<&PublicKey> for proto::PublicKey` conversion used by
`PublicKey::encode_protobuf`; modelled from the spec §4.3: wrap the backend's
native public encoding with the held variant's numeric tag. -/
def PublicKey.toProto (B : Backends) (p : PublicKey) : WireRecord :=
  match p.publickey with
  | .Ed25519 k => ⟨KeyType.Ed25519.tag, B.ed25519.pubToBytes k⟩
  | .Rsa k => ⟨KeyType.RSA.tag, B.rsa.pubEncodeX509 k⟩
  | .Secp256k1 k => ⟨KeyType.Secp256k1.tag, B.secp256k1.pubToBytes k⟩
  | .Ecdsa k => ⟨KeyType.Ecdsa.tag, B.ecdsa.pubEncodeDer k⟩

/-- `PublicKey::encode_protobuf` (keypair.rs 473–500): serialize the public
wire record; total — public encoding succeeds for every variant, RSA
included. -/
def PublicKey.encode_protobuf (B : Backends) (p : PublicKey) : Bytes :=
  serializeWire (p.toProto B)

/-- `TryFrom<proto::PublicKey> for PublicKey` (keypair.rs 544–596): dispatch
on the tag; every recognized algorithm whose backend is compiled out reports
"missing feature" naming it; an unrecognized tag is reported as an
unsupported algorithm type. -/
def PublicKey.fromProto (B : Backends) (F : Features) (r : WireRecord) :
    Except DecodingError PublicKey :=
  match keyTypeOfTag r.tag with
  | some .Ed25519 =>
    if F.ed25519 then (B.ed25519.pubTryFromBytes r.data).map (fun k => ⟨.Ed25519 k⟩)
    else .error (.missingFeature "ed25519")
  | some .RSA =>
    if F.rsa then (B.rsa.pubTryDecodeX509 r.data).map (fun k => ⟨.Rsa k⟩)
    else .error (.missingFeature "rsa")
  | some .Secp256k1 =>
    if F.secp256k1 then (B.secp256k1.pubTryFromBytes r.data).map (fun k => ⟨.Secp256k1 k⟩)
    else .error (.missingFeature "secp256k1")
  | some .Ecdsa =>
    if F.ecdsa then (B.ecdsa.pubTryDecodeDer r.data).map (fun k => ⟨.Ecdsa k⟩)
    else .error (.missingFeature "ecdsa")
  | none => .error (.unsupportedAlgorithmType r.tag)

/-- `PublicKey::try_decode_protobuf` (keypair.rs 505–529): parse the public
wire record ("public key bytes" protobuf failure otherwise), then dispatch on
its tag. -/
def PublicKey.try_decode_protobuf (B : Backends) (F : Features) (bytes : Bytes) :
    Except DecodingError PublicKey :=
  match parseWire bytes with
  | none => .error (.badProtobuf "public key bytes")
  | some r => PublicKey.fromProto B F r

/-! ## Downcasts (`try_into_*`, keypair.rs 341–407 and 598–664) -/

/-- `TryInto<ed25519::Keypair> for Keypair` (keypair.rs 341–356). -/
def Keypair.try_into_ed25519 (K : Keypair) : Except OtherVariantError Bytes :=
  match K.keypair with
  | .Ed25519 inner => .ok inner
  | .Rsa _ => .error ⟨.RSA⟩
  | .Secp256k1 _ => .error ⟨.Secp256k1⟩
  | .Ecdsa _ => .error ⟨.Ecdsa⟩

/-- `TryInto<ecdsa::Keypair> for Keypair` (keypair.rs 358–373). -/
def Keypair.try_into_ecdsa (K : Keypair) : Except OtherVariantError Bytes :=
  match K.keypair with
  | .Ecdsa inner => .ok inner
  | .Ed25519 _ => .error ⟨.Ed25519⟩
  | .Rsa _ => .error ⟨.RSA⟩
  | .Secp256k1 _ => .error ⟨.Secp256k1⟩

/-- `TryInto<secp256k1::Keypair> for Keypair` (keypair.rs 375–390). -/
def Keypair.try_into_secp256k1 (K : Keypair) : Except OtherVariantError Bytes :=
  match K.keypair with
  | .Secp256k1 inner => .ok inner
  | .Ed25519 _ => .error ⟨.Ed25519⟩
  | .Rsa _ => .error ⟨.RSA⟩
  | .Ecdsa _ => .error ⟨.Ecdsa⟩

/-- `TryInto<rsa::Keypair> for Keypair` (keypair.rs 392–407). -/
def Keypair.try_into_rsa (K : Keypair) : Except OtherVariantError Bytes :=
  match K.keypair with
  | .Rsa inner => .ok inner
  | .Ed25519 _ => .error ⟨.Ed25519⟩
  | .Secp256k1 _ => .error ⟨.Secp256k1⟩
  | .Ecdsa _ => .error ⟨.Ecdsa⟩

/-- `TryInto<ed25519::PublicKey> for PublicKey` (keypair.rs 598–613). -/
def PublicKey.try_into_ed25519 (p : PublicKey) : Except OtherVariantError Bytes :=
  match p.publickey with
  | .Ed25519 inner => .ok inner
  | .Rsa _ => .error ⟨.RSA⟩
  | .Secp256k1 _ => .error ⟨.Secp256k1⟩
  | .Ecdsa _ => .error ⟨.Ecdsa⟩

/-- `TryInto<ecdsa::PublicKey> for PublicKey` (keypair.rs 615–630). -/
def PublicKey.try_into_ecdsa (p : PublicKey) : Except OtherVariantError Bytes :=
  match p.publickey with
  | .Ecdsa inner => .ok inner
  | .Ed25519 _ => .error ⟨.Ed25519⟩
  | .Rsa _ => .error ⟨.RSA⟩
  | .Secp256k1 _ => .error ⟨.Secp256k1⟩

/-- `TryInto<secp256k1::PublicKey> for PublicKey` (keypair.rs 632–647). -/
def PublicKey.try_into_secp256k1 (p : PublicKey) : Except OtherVariantError Bytes :=
  match p.publickey with
  | .Secp256k1 inner => .ok inner
  | .Ed25519 _ => .error ⟨.Ed25519⟩
  | .Rsa _ => .error ⟨.RSA⟩
  | .Ecdsa _ => .error ⟨.Ecdsa⟩

/-- `TryInto<rsa::PublicKey> for PublicKey` (keypair.rs 649–664). -/
def PublicKey.try_into_rsa (p : PublicKey) : Except OtherVariantError Bytes :=
  match p.publickey with
  | .Rsa inner => .ok inner
  | .Ed25519 _ => .error ⟨.Ed25519⟩
  | .Secp256k1 _ => .error ⟨.Secp256k1⟩
  | .Ecdsa _ => .error ⟨.Ecdsa⟩

/-- Dispatcher over the four `Keypair` downcasts, indexed by the target
algorithm (used only to state claims uniformly). -/
def Keypair.tryIntoAlg (X : KeyType) (K : Keypair) : Except OtherVariantError Bytes :=
  match X with
  | .Ed25519 => K.try_into_ed25519
  | .RSA => K.try_into_rsa
  | .Secp256k1 => K.try_into_secp256k1
  | .Ecdsa => K.try_into_ecdsa

/-- Dispatcher over the four `PublicKey` downcasts, indexed by the target
algorithm (used only to state claims uniformly). -/
def PublicKey.tryIntoAlg (X : KeyType) (p : PublicKey) : Except OtherVariantError Bytes :=
  match X with
  | .Ed25519 => p.try_into_ed25519
  | .RSA => p.try_into_rsa
  | .Secp256k1 => p.try_into_secp256k1
  | .Ecdsa => p.try_into_ecdsa

/-! ## Backend contracts (spec §4.4/§8) and a concrete instantiation

The backends are external capability providers; the spec obliges them to
satisfy sign/verify correctness and native encode/decode roundtrips.  The
contracts below express those obligations, and `toyBackends` is a concrete
instantiation used to evaluate the dispatch layer on explicit inputs. -/

/-- Modelled from the spec: sign/verify correctness of each backend — a
signature produced by `sign` verifies under the derived public key. -/
def SignVerifyContract (B : Backends) : Prop :=
  (∀ kp m, B.ed25519.verify (B.ed25519.public kp) m (B.ed25519.sign kp m) = true) ∧
  (∀ kp m s, B.rsa.sign kp m = .ok s → B.rsa.verify (B.rsa.public kp) m s = true) ∧
  (∀ kp m, B.secp256k1.verify (B.secp256k1.public kp) m (B.secp256k1.sign kp m) = true) ∧
  (∀ kp m, B.ecdsa.verify (B.ecdsa.public kp) m (B.ecdsa.sign kp m) = true)

/-- Modelled from the spec: each backend's native public-key decoder inverts
its native public-key encoder. -/
def PubCodecContract (B : Backends) : Prop :=
  (∀ k, B.ed25519.pubTryFromBytes (B.ed25519.pubToBytes k) = .ok k) ∧
  (∀ k, B.rsa.pubTryDecodeX509 (B.rsa.pubEncodeX509 k) = .ok k) ∧
  (∀ k, B.secp256k1.pubTryFromBytes (B.secp256k1.pubToBytes k) = .ok k) ∧
  (∀ k, B.ecdsa.pubTryDecodeDer (B.ecdsa.pubEncodeDer k) = .ok k)

/-- Concrete ed25519 backend used for witnesses: keys are bytes, a signature
is the keypair bytes followed by the message, verification recomputes it. -/
def toyEd25519 : Ed25519Backend :=
  ⟨fun kp m => kp ++ m, id, id, Except.ok, fun pk m s => s == pk ++ m, id, Except.ok⟩

/-- Concrete RSA backend used for witnesses. -/
def toyRsa : RsaBackend :=
  ⟨fun kp m => Except.ok (kp ++ m), id, fun pk m s => s == pk ++ m, id, Except.ok⟩

/-- Concrete secp256k1 backend used for witnesses. -/
def toySecp256k1 : Secp256k1Backend :=
  ⟨fun kp m => kp ++ m, id, id, Except.ok, fun pk m s => s == pk ++ m, id, Except.ok⟩

/-- Concrete ECDSA backend used for witnesses. -/
def toyEcdsa : EcdsaBackend :=
  ⟨fun kp m => kp ++ m, id, id, Except.ok, fun pk m s => s == pk ++ m, id, Except.ok⟩

/-- The concrete backend set used for witnesses. -/
def toyBackends : Backends := ⟨toyEd25519, toyRsa, toySecp256k1, toyEcdsa⟩


/-- Decoding a serialized private record reduces to the tag dispatch. -/
theorem from_protobuf_encoding_serializeWire (B : Backends) (F : Features)
    (r : WireRecord) :
    Keypair.from_protobuf_encoding B F (serializeWire r) = Keypair.fromProto B F r := by
  unfold Keypair.from_protobuf_encoding
  rw [parseWire_serializeWire]

/-- Decoding a serialized public record reduces to the tag dispatch. -/
theorem try_decode_protobuf_serializeWire (B : Backends) (F : Features)
    (r : WireRecord) :
    PublicKey.try_decode_protobuf B F (serializeWire r) = PublicKey.fromProto B F r := by
  unfold PublicKey.try_decode_protobuf
  rw [parseWire_serializeWire]

/-! ## Claims -/

/-- Claim C1: for every keypair holding any supported algorithm and every
message, a signature returned by `Keypair::sign` verifies under the keypair's
derived public key, given backends satisfying the spec's sign/verify
contract. -/
theorem keypair_sign_verify_correct (B : Backends) (h : SignVerifyContract B)
    (K : Keypair) (m s : Bytes) (hs : K.sign B m = .ok s) :
    (K.public B).verify B m s = true := by
  obtain ⟨hed, hrsa, hsecp, hecdsa⟩ := h
  obtain ⟨ki⟩ := K
  cases ki with
  | Ed25519 kp =>
    simp only [Keypair.sign, Except.ok.injEq] at hs
    simpa [Keypair.public, PublicKey.verify, ← hs] using hed kp m
  | Rsa kp =>
    simpa [Keypair.public, PublicKey.verify] using hrsa kp m s hs
  | Secp256k1 kp =>
    simp only [Keypair.sign, Except.ok.injEq] at hs
    simpa [Keypair.public, PublicKey.verify, ← hs] using hsecp kp m
  | Ecdsa kp =>
    simp only [Keypair.sign, Except.ok.injEq] at hs
    simpa [Keypair.public, PublicKey.verify, ← hs] using hecdsa kp m

/-- Evaluation of `keypair_sign_verify_correct` at the toy backends with an
RSA keypair and a concrete message. -/
theorem keypair_sign_verify_correct_witness :
    PublicKey.verify toyBackends
      (Keypair.public toyBackends ⟨KeyPairInner.Rsa [1]⟩) [2, 3] [1, 2, 3] = true := by
  refine keypair_sign_verify_correct toyBackends
    ⟨?_, ?_, ?_, ?_⟩ ⟨KeyPairInner.Rsa [1]⟩ [2, 3] [1, 2, 3] rfl
  · intro kp m; simp [toyBackends, toyEd25519]
  · intro kp m s hs
    simp only [toyBackends, toyRsa, Except.ok.injEq] at hs
    simp [toyBackends, toyRsa, ← hs]
  · intro kp m; simp [toyBackends, toySecp256k1]
  · intro kp m; simp [toyBackends, toyEcdsa]

/-- Claim C2: decoding the wire bytes produced by encoding any `PublicKey`
(all features enabled) returns that key, given backends whose native public
decoders invert their encoders. -/
theorem publickey_protobuf_roundtrip (B : Backends) (h : PubCodecContract B)
    (p : PublicKey) :
    PublicKey.try_decode_protobuf B Features.all (PublicKey.encode_protobuf B p) =
      .ok p := by
  obtain ⟨hed, hrsa, hsecp, hecdsa⟩ := h
  obtain ⟨pi⟩ := p
  unfold PublicKey.try_decode_protobuf PublicKey.encode_protobuf
  rw [parseWire_serializeWire]
  cases pi with
  | Ed25519 k =>
    simp [PublicKey.toProto, PublicKey.fromProto, keyTypeOfTag, KeyType.tag,
      Features.all, hed k, Except.map]
  | Rsa k =>
    simp [PublicKey.toProto, PublicKey.fromProto, keyTypeOfTag, KeyType.tag,
      Features.all, hrsa k, Except.map]
  | Secp256k1 k =>
    simp [PublicKey.toProto, PublicKey.fromProto, keyTypeOfTag, KeyType.tag,
      Features.all, hsecp k, Except.map]
  | Ecdsa k =>
    simp [PublicKey.toProto, PublicKey.fromProto, keyTypeOfTag, KeyType.tag,
      Features.all, hecdsa k, Except.map]

/-- Evaluation of `publickey_protobuf_roundtrip` at the toy backends on a
concrete secp256k1 public key. -/
theorem publickey_protobuf_roundtrip_witness :
    PublicKey.try_decode_protobuf toyBackends Features.all
      (PublicKey.encode_protobuf toyBackends ⟨PublicKeyInner.Secp256k1 [5]⟩) =
      .ok ⟨PublicKeyInner.Secp256k1 [5]⟩ :=
  publickey_protobuf_roundtrip toyBackends
    ⟨fun _ => rfl, fun _ => rfl, fun _ => rfl, fun _ => rfl⟩
    ⟨PublicKeyInner.Secp256k1 [5]⟩

/-- Claim C3: an Ed25519 keypair encodes to wire bytes, those bytes decode
back to a keypair whose derived public key equals the original's, and a
message signed by the decoded keypair verifies under that public key, given
an ed25519 backend whose private decoder inverts its encoder and whose
signatures verify. -/
theorem ed25519_keypair_protobuf_roundtrip (B : Backends)
    (hkp : ∀ k, B.ed25519.tryFromBytes (B.ed25519.toBytes k) = .ok k)
    (hsv : ∀ kp m, B.ed25519.verify (B.ed25519.public kp) m (B.ed25519.sign kp m) = true)
    (k m : Bytes) :
    ∃ bs K2,
      Keypair.to_protobuf_encoding B ⟨KeyPairInner.Ed25519 k⟩ = .ok bs ∧
      Keypair.from_protobuf_encoding B Features.all bs = .ok K2 ∧
      Keypair.public B K2 = Keypair.public B ⟨KeyPairInner.Ed25519 k⟩ ∧
      ∃ s, Keypair.sign B K2 m = .ok s ∧
        PublicKey.verify B (Keypair.public B ⟨KeyPairInner.Ed25519 k⟩) m s = true := by
  refine ⟨_, ⟨KeyPairInner.Ed25519 k⟩, rfl, ?_, rfl, B.ed25519.sign k m, rfl, ?_⟩
  · unfold Keypair.from_protobuf_encoding
    rw [parseWire_serializeWire]
    simp [Keypair.fromProto, keyTypeOfTag, KeyType.tag, Features.all, hkp k, Except.map]
  · simpa [Keypair.public, PublicKey.verify] using hsv k m

/-- Evaluation of `ed25519_keypair_protobuf_roundtrip` at the toy backends
on a concrete key and message. -/
theorem ed25519_keypair_protobuf_roundtrip_witness :
    ∃ bs K2,
      Keypair.to_protobuf_encoding toyBackends ⟨KeyPairInner.Ed25519 [7]⟩ = .ok bs ∧
      Keypair.from_protobuf_encoding toyBackends Features.all bs = .ok K2 ∧
      Keypair.public toyBackends K2 = Keypair.public toyBackends ⟨KeyPairInner.Ed25519 [7]⟩ ∧
      ∃ s, Keypair.sign toyBackends K2 [9] = .ok s ∧
        PublicKey.verify toyBackends
          (Keypair.public toyBackends ⟨KeyPairInner.Ed25519 [7]⟩) [9] s = true :=
  ed25519_keypair_protobuf_roundtrip toyBackends (fun _ => rfl)
    (fun kp m => by simp [toyBackends, toyEd25519]) [7] [9]

/-- Claim C4: a downcast of a `Keypair` or `PublicKey` to an algorithm other
than the one actually held always returns the variant-mismatch error carrying
the held algorithm; it never returns a value. -/
theorem downcast_wrong_variant (K : Keypair) (p : PublicKey) (X : KeyType)
    (hK : X ≠ K.keyType) (hp : X ≠ p.keyType) :
    Keypair.tryIntoAlg X K = .error ⟨K.keyType⟩ ∧
    PublicKey.tryIntoAlg X p = .error ⟨p.keyType⟩ := by
  obtain ⟨ki⟩ := K
  obtain ⟨pi⟩ := p
  constructor
  · cases X <;> cases ki <;>
      simp_all [Keypair.tryIntoAlg, Keypair.keyType, Keypair.try_into_ed25519,
        Keypair.try_into_rsa, Keypair.try_into_secp256k1, Keypair.try_into_ecdsa]
  · cases X <;> cases pi <;>
      simp_all [PublicKey.tryIntoAlg, PublicKey.keyType, PublicKey.try_into_ed25519,
        PublicKey.try_into_rsa, PublicKey.try_into_secp256k1, PublicKey.try_into_ecdsa]

/-- Evaluation of `downcast_wrong_variant`: downcasting an Ed25519 keypair
and a secp256k1 public key to RSA. -/
theorem downcast_wrong_variant_witness :
    Keypair.tryIntoAlg KeyType.RSA ⟨KeyPairInner.Ed25519 []⟩ =
      .error ⟨KeyType.Ed25519⟩ ∧
    PublicKey.tryIntoAlg KeyType.RSA ⟨PublicKeyInner.Secp256k1 []⟩ =
      .error ⟨KeyType.Secp256k1⟩ :=
  downcast_wrong_variant ⟨KeyPairInner.Ed25519 []⟩ ⟨PublicKeyInner.Secp256k1 []⟩
    KeyType.RSA (by decide) (by decide)

/-- Claim C5: `Keypair::to_protobuf_encoding` refuses an RSA-backed keypair
with the distinct "encoding unsupported" error regardless of the key value,
and succeeds on every non-RSA variant. -/
theorem rsa_private_encode_policy (B : Backends) (K : Keypair) :
    (K.keyType = .RSA →
      Keypair.to_protobuf_encoding B K = .error (.encodingUnsupported "RSA")) ∧
    (K.keyType ≠ .RSA → ∃ bs, Keypair.to_protobuf_encoding B K = .ok bs) := by
  obtain ⟨ki⟩ := K
  cases ki <;> simp [Keypair.keyType, Keypair.to_protobuf_encoding]

/-- Evaluation of `rsa_private_encode_policy` at a concrete RSA keypair and
a concrete Ed25519 keypair. -/
theorem rsa_private_encode_policy_witness :
    Keypair.to_protobuf_encoding toyBackends ⟨KeyPairInner.Rsa [0]⟩ =
      .error (.encodingUnsupported "RSA") ∧
    ∃ bs, Keypair.to_protobuf_encoding toyBackends ⟨KeyPairInner.Ed25519 [0]⟩ = .ok bs :=
  ⟨(rsa_private_encode_policy toyBackends ⟨KeyPairInner.Rsa [0]⟩).1 rfl,
   (rsa_private_encode_policy toyBackends ⟨KeyPairInner.Ed25519 [0]⟩).2 (by decide)⟩

/-- Varint encoding of a single-digit value. -/
theorem encodeVarint_small {n : Nat} (h : n < 128) : encodeVarint n = [n] :=
  encodeVarint_lt h

/-- Claim C6 counterexample: with the RSA backend compiled out, decoding an
RSA-tagged private-key record yields the "decoding unsupported" error, not
the "missing feature" error the claim requires for every recognized tag
whose backend is disabled. -/
theorem missing_feature_claim_cex :
    serializeWire ⟨0, []⟩ = [8, 0, 18, 0] ∧
    Keypair.from_protobuf_encoding toyBackends ⟨true, false, true, true⟩
      [8, 0, 18, 0] = .error (.decodingUnsupported "RSA") ∧
    Keypair.from_protobuf_encoding toyBackends ⟨true, false, true, true⟩
      [8, 0, 18, 0] ≠ .error (.missingFeature "rsa") := by
  refine ⟨?_, by decide, by decide⟩
  simp [serializeWire, encodeVarint_small]

/-- Claim C6 (amended): decoding wire bytes tagged with a recognized
algorithm whose backend is compiled out fails with the "missing feature"
error naming that algorithm, for `PublicKey::try_decode_protobuf` on all
four tags and for `Keypair::from_protobuf_encoding` on the Ed25519,
secp256k1 and ECDSA tags; an RSA-tagged private record instead fails with
"decoding unsupported" whether or not the RSA backend is compiled in. -/
theorem missing_feature_decode_amended (B : Backends) (F : Features) (data : Bytes) :
    (F.ed25519 = false →
      PublicKey.try_decode_protobuf B F (serializeWire ⟨1, data⟩) =
        .error (.missingFeature "ed25519") ∧
      Keypair.from_protobuf_encoding B F (serializeWire ⟨1, data⟩) =
        .error (.missingFeature "ed25519")) ∧
    (F.rsa = false →
      PublicKey.try_decode_protobuf B F (serializeWire ⟨0, data⟩) =
        .error (.missingFeature "rsa")) ∧
    (F.secp256k1 = false →
      PublicKey.try_decode_protobuf B F (serializeWire ⟨2, data⟩) =
        .error (.missingFeature "secp256k1") ∧
      Keypair.from_protobuf_encoding B F (serializeWire ⟨2, data⟩) =
        .error (.missingFeature "secp256k1")) ∧
    (F.ecdsa = false →
      PublicKey.try_decode_protobuf B F (serializeWire ⟨3, data⟩) =
        .error (.missingFeature "ecdsa") ∧
      Keypair.from_protobuf_encoding B F (serializeWire ⟨3, data⟩) =
        .error (.missingFeature "ecdsa")) ∧
    Keypair.from_protobuf_encoding B F (serializeWire ⟨0, data⟩) =
      .error (.decodingUnsupported "RSA") := by
  refine ⟨fun h => ?_, fun h => ?_, fun h => ?_, fun h => ?_, ?_⟩
  · constructor <;>
      simp [try_decode_protobuf_serializeWire, from_protobuf_encoding_serializeWire,
        PublicKey.fromProto, Keypair.fromProto, keyTypeOfTag, h]
  · simp [try_decode_protobuf_serializeWire, PublicKey.fromProto, keyTypeOfTag, h]
  · constructor <;>
      simp [try_decode_protobuf_serializeWire, from_protobuf_encoding_serializeWire,
        PublicKey.fromProto, Keypair.fromProto, keyTypeOfTag, h]
  · constructor <;>
      simp [try_decode_protobuf_serializeWire, from_protobuf_encoding_serializeWire,
        PublicKey.fromProto, Keypair.fromProto, keyTypeOfTag, h]
  · simp [from_protobuf_encoding_serializeWire, Keypair.fromProto, keyTypeOfTag]

/-- Evaluation of `missing_feature_decode_amended` with every feature
disabled on an Ed25519-tagged and an RSA-tagged record. -/
theorem missing_feature_decode_amended_witness :
    PublicKey.try_decode_protobuf toyBackends ⟨false, false, false, false⟩
      (serializeWire ⟨1, []⟩) = .error (.missingFeature "ed25519") ∧
    Keypair.from_protobuf_encoding toyBackends ⟨false, false, false, false⟩
      (serializeWire ⟨0, []⟩) = .error (.decodingUnsupported "RSA") :=
  ⟨((missing_feature_decode_amended toyBackends ⟨false, false, false, false⟩ []).1 rfl).1,
   (missing_feature_decode_amended toyBackends ⟨false, false, false, false⟩ []).2.2.2.2⟩

/-- Claim C7: decoding a wire record whose algorithm-type field holds the
undefined value 99 fails with the "unsupported algorithm type" error on both
the public and the private decode path, for every backend and feature
selection — never a generic parse error, never a defaulted algorithm. -/
theorem unknown_tag_rejected (B : Backends) (F : Features) (data : Bytes) :
    PublicKey.try_decode_protobuf B F (serializeWire ⟨99, data⟩) =
      .error (.unsupportedAlgorithmType 99) ∧
    Keypair.from_protobuf_encoding B F (serializeWire ⟨99, data⟩) =
      .error (.unsupportedAlgorithmType 99) := by
  constructor
  · simp [try_decode_protobuf_serializeWire, PublicKey.fromProto, keyTypeOfTag]
  · simp [from_protobuf_encoding_serializeWire, Keypair.fromProto, keyTypeOfTag]

/-- Claim C8: `PublicKey::verify` has no error channel — for every public
key, message and signature bytes (malformed or empty included) it returns a
boolean, true or false. -/
theorem verify_is_total (B : Backends) (p : PublicKey) (m s : Bytes) :
    PublicKey.verify B p m s = true ∨ PublicKey.verify B p m s = false := by
  cases h : PublicKey.verify B p m s
  · right; rfl
  · left; rfl

/-- Claim C9: `PublicKey::encode_protobuf` is a pure function of the held
algorithm tag and key bytes — two public keys with the same tag and the same
underlying bytes encode to byte-identical output. -/
theorem encode_protobuf_deterministic (B : Backends) (p q : PublicKey)
    (ht : p.keyType = q.keyType) (hb : p.keyBytes = q.keyBytes) :
    PublicKey.encode_protobuf B p = PublicKey.encode_protobuf B q := by
  obtain ⟨pi⟩ := p
  obtain ⟨qi⟩ := q
  cases pi <;> cases qi <;>
    simp_all [PublicKey.keyType, PublicKey.keyBytes]

/-- Evaluation of `encode_protobuf_deterministic` on two structurally equal
Ed25519 public keys. -/
theorem encode_protobuf_deterministic_witness :
    PublicKey.encode_protobuf toyBackends ⟨PublicKeyInner.Ed25519 [1]⟩ =
      PublicKey.encode_protobuf toyBackends ⟨PublicKeyInner.Ed25519 [1]⟩ :=
  encode_protobuf_deterministic toyBackends ⟨PublicKeyInner.Ed25519 [1]⟩
    ⟨PublicKeyInner.Ed25519 [1]⟩ rfl rfl

/-- Claim C10: every byte string parsing to an RSA-tagged wire record is
refused by `Keypair::from_protobuf_encoding` with "decoding unsupported"
under every feature selection (RSA compiled in included); the encode path is
likewise blocked, and "decoding unsupported" is distinct from the "missing
feature" error used for disabled algorithms. -/
theorem rsa_private_decode_blocked (B : Backends) (F : Features)
    (bytes data : Bytes) (h : parseWire bytes = some ⟨0, data⟩) :
    Keypair.from_protobuf_encoding B F bytes = .error (.decodingUnsupported "RSA") ∧
    Keypair.to_protobuf_encoding B ⟨KeyPairInner.Rsa data⟩ =
      .error (.encodingUnsupported "RSA") ∧
    (∀ a b, DecodingError.decodingUnsupported a ≠ DecodingError.missingFeature b) := by
  refine ⟨?_, rfl, fun a b hab => by cases hab⟩
  unfold Keypair.from_protobuf_encoding
  rw [h]
  rfl

/-- Evaluation of `rsa_private_decode_blocked` on the concrete RSA-tagged
record `[8, 0, 18, 0]` with all features enabled. -/
theorem rsa_private_decode_blocked_witness :
    Keypair.from_protobuf_encoding toyBackends Features.all [8, 0, 18, 0] =
      .error (.decodingUnsupported "RSA") :=
  (rsa_private_decode_blocked toyBackends Features.all [8, 0, 18, 0] []
    (by decide)).1
